import Mathlib

/-!
# Verification of the chat synchronization core of `medical-network`

Shallow embedding of the chat subsystem: the zustand store
`src/stores/useChatStore.ts` (conversation directory, message timeline,
read tracking, realtime subscription management) and the SQL functions of
`src/supabase/migrations/20250311183803_holy_desert.sql`
(`update_chat_on_message`, `mark_messages_as_read`).

Identifiers (uuids in the source) are modelled as `Nat`, produced by a
`nextId` counter on the database state; timestamps (`timestamptz`) as `Nat`.
Presentation-only data (avatars, names, the `isLoading` flag) is omitted.
-/

namespace MedNet

/-- A row of the `chat_messages` table (also the store's `Message` shape,
minus the hydrated `sender` display attributes). Exactly one of `chat_id`
(direct conversation) / `group_id` (group conversation) is expected to be
populated. -/
structure Message where
  id : Nat
  chat_id : Option Nat
  group_id : Option Nat
  sender_id : Nat
  content : String
  created_at : Nat
  is_read : Bool
deriving DecidableEq, Repr

/-- A row of the `chats` table (direct 1:1 conversations): the two
participants sit in `user_id` / `doctor_id`, and the table carries a stored
`unread_count` maintained by the `update_chat_on_message` trigger. -/
structure Chat where
  id : Nat
  user_id : Nat
  doctor_id : Nat
  is_archived : Bool
  is_muted : Bool
  last_message_at : Nat
  unread_count : Nat
deriving DecidableEq, Repr

/-- A row of the `chat_groups` table (group conversations). -/
structure ChatGroup where
  id : Nat
  name : String
  created_by : Nat
  is_archived : Bool
  is_muted : Bool
  last_message_at : Nat
  unread_count : Nat
deriving DecidableEq, Repr

/-- A row of the `chat_group_members` table. -/
structure GroupMember where
  group_id : Nat
  user_id : Nat
  role : String
deriving DecidableEq, Repr

/-- The backend database state for the chat subsystem. `nextId` models the
`gen_random_uuid()` id source for inserted rows. -/
structure DB where
  chats : List Chat
  chat_groups : List ChatGroup
  chat_group_members : List GroupMember
  chat_messages : List Message
  nextId : Nat
deriving DecidableEq, Repr

/-! ## SQL layer (migration `20250311183803_holy_desert.sql`) -/

/-- Trigger function `update_chat_on_message`: on insert of a message, bump
the owning conversation's `last_message_at` and increment its stored
`unread_count` — unconditionally, with no regard to the sender. -/
def update_chat_on_message (newMsg : Message) (db : DB) : DB :=
  match newMsg.chat_id with
  | some cid =>
      { db with chats := db.chats.map fun c =>
          if c.id = cid then
            { c with last_message_at := newMsg.created_at, unread_count := c.unread_count + 1 }
          else c }
  | none =>
      match newMsg.group_id with
      | some gid =>
          { db with chat_groups := db.chat_groups.map fun g =>
              if g.id = gid then
                { g with last_message_at := newMsg.created_at, unread_count := g.unread_count + 1 }
              else g }
      | none => db

/-- Insert a row into `chat_messages`; the `AFTER INSERT` trigger
`update_chat_on_message` fires on the new row. -/
def insertMessage (m : Message) (db : DB) : DB :=
  update_chat_on_message m { db with chat_messages := db.chat_messages ++ [m] }

/-- Per-row effect of the direct branch of `mark_messages_as_read`:
`UPDATE chat_messages SET is_read = true WHERE chat_id = p_chat_id AND is_read = false`. -/
def markMsgReadDirect (cid : Nat) (m : Message) : Message :=
  if m.chat_id = some cid ∧ m.is_read = false then { m with is_read := true } else m

/-- Per-row effect of the group branch of `mark_messages_as_read`. -/
def markMsgReadGroup (gid : Nat) (m : Message) : Message :=
  if m.group_id = some gid ∧ m.is_read = false then { m with is_read := true } else m

/-- Per-row effect of `UPDATE chats SET unread_count = 0 WHERE id = p_chat_id`. -/
def resetChatUnread (cid : Nat) (c : Chat) : Chat :=
  if c.id = cid then { c with unread_count := 0 } else c

/-- Per-row effect of `UPDATE chat_groups SET unread_count = 0 WHERE id = p_group_id`. -/
def resetGroupUnread (gid : Nat) (g : ChatGroup) : ChatGroup :=
  if g.id = gid then { g with unread_count := 0 } else g

/-- RPC `mark_messages_as_read(p_chat_id uuid, p_group_id uuid)`:
`IF p_chat_id IS NOT NULL` marks the direct chat's unread messages read and
zeroes its counter; `ELSIF p_group_id IS NOT NULL` does the same for the
group; with both null, nothing happens. Neither branch looks at the sender:
every unread message of the conversation is flipped. -/
def mark_messages_as_read (p_chat_id p_group_id : Option Nat) (db : DB) : DB :=
  match p_chat_id with
  | some cid =>
      { db with
        chat_messages := db.chat_messages.map (markMsgReadDirect cid),
        chats := db.chats.map (resetChatUnread cid) }
  | none =>
      match p_group_id with
      | some gid =>
          { db with
            chat_messages := db.chat_messages.map (markMsgReadGroup gid),
            chat_groups := db.chat_groups.map (resetGroupUnread gid) }
      | none => db

/-! ## Conversation directory (`fetchChats` in `useChatStore.ts`) -/

/-- Conversation kind tag added client-side (`type: 'direct' as const` /
`type: 'group' as const`). -/
inductive ChatType where
  | direct
  | group
deriving DecidableEq, Repr

/-- The row shape produced by the embedded selection
`messages:chat_messages(content, created_at, is_read)` in `fetchChats`.
`sender_id` is NOT among the selected columns, so on these rows it is
absent (`none`) — the `m.sender_id !== user.id` test in the unread filter
runs against `undefined`. -/
structure MsgPreview where
  content : String
  created_at : Nat
  is_read : Bool
  sender_id : Option Nat
deriving DecidableEq, Repr

/-- Projection applied by the embedded selection: only `content`,
`created_at` and `is_read` are carried over. -/
def toPreview (m : Message) : MsgPreview :=
  { content := m.content, created_at := m.created_at, is_read := m.is_read,
    sender_id := none }

/-- A processed entry of the store's `chats` array (the `Chat` interface of
the store, minus display-only attributes). -/
structure ProcessedChat where
  id : Nat
  type : ChatType
  is_archived : Bool
  is_muted : Bool
  last_message_at : Nat
  last_message : Option String
  unread_count : Nat
deriving DecidableEq, Repr

/-- Direct-chat query of `fetchChats`:
`.or(user_id.eq.viewer, doctor_id.eq.viewer)` on the `chats` table. -/
def directChatsOf (viewer : Nat) (db : DB) : List Chat :=
  db.chats.filter fun c => decide (c.user_id = viewer ∨ c.doctor_id = viewer)

/-- Group-chat query of `fetchChats`: the client sends no filter; the RLS
policy "Users can view groups they are members of" restricts the rows to
groups having the viewer in `chat_group_members`. -/
def groupChatsOf (viewer : Nat) (db : DB) : List ChatGroup :=
  db.chat_groups.filter fun g =>
    db.chat_group_members.any fun gm => decide (gm.group_id = g.id ∧ gm.user_id = viewer)

/-- The embedded `messages` relation of a direct chat, through the
column projection of the select string. -/
def directChatPreviews (cid : Nat) (db : DB) : List MsgPreview :=
  (db.chat_messages.filter fun m => decide (m.chat_id = some cid)).map toPreview

/-- Processing of one direct chat in `fetchChats`: tag `type: 'direct'`,
take `last_message` from the first embedded row, and recompute
`unread_count` as `messages.filter(m => !m.is_read && m.sender_id !== user.id).length`
over the projected rows (whose `sender_id` is absent). -/
def processDirectChat (viewer : Nat) (db : DB) (c : Chat) : ProcessedChat :=
  let msgs := directChatPreviews c.id db
  { id := c.id, type := ChatType.direct,
    is_archived := c.is_archived, is_muted := c.is_muted,
    last_message_at := c.last_message_at,
    last_message := msgs.head?.map MsgPreview.content,
    unread_count :=
      (msgs.filter fun m => decide (m.is_read = false ∧ m.sender_id ≠ some viewer)).length }

/-- Processing of one group chat in `fetchChats`: tag `type: 'group'` and
keep the row as is — in particular `unread_count` is the stored counter of
the `chat_groups` row. -/
def processGroupChat (g : ChatGroup) : ProcessedChat :=
  { id := g.id, type := ChatType.group,
    is_archived := g.is_archived, is_muted := g.is_muted,
    last_message_at := g.last_message_at,
    last_message := none,
    unread_count := g.unread_count }

/-- Concatenation `[...processedDirectChats, ...processedGroupChats]`: the two subsets,
each processed, concatenated before the client-side sort. -/
def mergedChats (viewer : Nat) (db : DB) : List ProcessedChat :=
  (directChatsOf viewer db).map (processDirectChat viewer db)
    ++ (groupChatsOf viewer db).map processGroupChat

/-- Stable insertion step for the client-side
`.sort((a, b) => time(b) - time(a))`: an element moves past another only
when the other's timestamp is strictly larger, so equal timestamps keep
their pre-sort relative order (JS `Array.prototype.sort` is stable). -/
def insertByRecency (c : ProcessedChat) : List ProcessedChat → List ProcessedChat
  | [] => [c]
  | d :: ds =>
      if c.last_message_at < d.last_message_at then d :: insertByRecency c ds
      else c :: d :: ds

/-- Stable sort by `last_message_at` descending. -/
def sortByRecency : List ProcessedChat → List ProcessedChat
  | [] => []
  | c :: cs => insertByRecency c (sortByRecency cs)

/-- Function `fetchChats` (store state part): merge the processed direct and group
subsets and sort the union by `last_message_at` descending. -/
def fetchChats (viewer : Nat) (db : DB) : List ProcessedChat :=
  sortByRecency (mergedChats viewer db)

/-- Specification-side derived unread counter (spec section 3, "Unread
Counter"): the number of messages of conversation `convId` whose sender
differs from the viewer and whose read flag is false. Written from the
spec's words, for comparison with the counts the code annotates. -/
def specUnreadCount (viewer convId : Nat) (db : DB) : Nat :=
  (db.chat_messages.filter fun m =>
    decide ((m.chat_id = some convId ∨ m.group_id = some convId)
      ∧ m.sender_id ≠ viewer ∧ m.is_read = false)).length

/-! ## Store state and operations -/

/-- The store's `currentChat` slot. `fetchMessages` — the only operation
that fills this slot — stores the RAW query row (`directChat || groupChat`),
and neither the `chats` nor the `chat_groups` table carries a `type`
column: the `type` tag exists only on listing entries processed inside
`fetchChats`, which are never stored here. So through the store's own flow
`type` is always absent (`none`). Only the fields the store's operations
read back are kept. -/
structure CurrentChat where
  id : Nat
  type : Option ChatType
deriving DecidableEq, Repr

/-- The store's mutable state (`ChatState` minus the function slots and the
presentation-only `isLoading` flag). `subscriptions` holds the ids of the
realtime channel handles currently kept by the store. -/
structure StoreState where
  chats : List ProcessedChat
  messages : List Message
  currentChat : Option CurrentChat
  error : Option String
  subscriptions : List Nat
deriving DecidableEq, Repr

/-- The existing-chat lookup filter of `startChat`:
`.or(user_id.eq.viewer, doctor_id.eq.viewer)` conjoined with
`.eq(user.id === doctorId ? 'user_id' : 'doctor_id', doctorId)`. Note the
second conjunct constrains only the `doctor_id` column (unless the viewer
messages themselves). -/
def chatPairFilter (viewer doctorId : Nat) (c : Chat) : Bool :=
  decide (c.user_id = viewer ∨ c.doctor_id = viewer)
    && (if viewer = doctorId then decide (c.user_id = doctorId)
        else decide (c.doctor_id = doctorId))

/-- Effect of `.single()` on the lookup: exactly one matching row yields it; zero or
several rows yield the PGRST116 error, which `startChat` treats as
"no existing chat". -/
def findExistingChat (viewer doctorId : Nat) (db : DB) : Option Chat :=
  match db.chats.filter (chatPairFilter viewer doctorId) with
  | [c] => some c
  | _ => none

/-- The row inserted by `startChat` when no existing chat is found:
`{ user_id: user.id, doctor_id: doctorId }`, remaining columns defaulted. -/
def newChatRow (viewer doctorId id : Nat) : Chat :=
  { id := id, user_id := viewer, doctor_id := doctorId,
    is_archived := false, is_muted := false,
    last_message_at := 0, unread_count := 0 }

/-- Operation `startChat(doctorId)` (authenticated path): return the id of the
existing chat matched by the lookup, or insert a fresh row and return its
id. -/
def startChat (viewer doctorId : Nat) (db : DB) : Nat × DB :=
  match findExistingChat viewer doctorId db with
  | some c => (c.id, db)
  | none =>
      (db.nextId,
       { db with chats := db.chats ++ [newChatRow viewer doctorId db.nextId],
                 nextId := db.nextId + 1 })

/-- Local patch of one directory entry's `is_archived` flag. -/
def setArchivedEntry (v : Bool) (chatId : Nat) (c : ProcessedChat) : ProcessedChat :=
  if c.id = chatId then { c with is_archived := v } else c

/-- Local patch of one directory entry's `is_muted` flag. -/
def setMutedEntry (v : Bool) (chatId : Nat) (c : ProcessedChat) : ProcessedChat :=
  if c.id = chatId then { c with is_muted := v } else c

/-- Backend row update for `is_archived` on the `chats` table. -/
def setChatRowArchived (v : Bool) (chatId : Nat) (c : Chat) : Chat :=
  if c.id = chatId then { c with is_archived := v } else c

/-- Backend row update for `is_muted` on the `chats` table. -/
def setChatRowMuted (v : Bool) (chatId : Nat) (c : Chat) : Chat :=
  if c.id = chatId then { c with is_muted := v } else c

/-- Operation `archiveChat(chatId)`. -/
def archiveChat (user : Option Nat) (backendFail : Option String) (chatId : Nat)
    (db : DB) (st : StoreState) : DB × StoreState :=
  match backendFail with
  | some e => (db, { st with error := some e })
  | none =>
      ({ db with chats := db.chats.map (setChatRowArchived true chatId) },
       { st with chats := st.chats.map (setArchivedEntry true chatId) })

/-- Operation `unarchiveChat(chatId)`. -/
def unarchiveChat (user : Option Nat) (backendFail : Option String) (chatId : Nat)
    (db : DB) (st : StoreState) : DB × StoreState :=
  match backendFail with
  | some e => (db, { st with error := some e })
  | none =>
      ({ db with chats := db.chats.map (setChatRowArchived false chatId) },
       { st with chats := st.chats.map (setArchivedEntry false chatId) })

/-- Operation `muteChat(chatId)`. -/
def muteChat (user : Option Nat) (backendFail : Option String) (chatId : Nat)
    (db : DB) (st : StoreState) : DB × StoreState :=
  match backendFail with
  | some e => (db, { st with error := some e })
  | none =>
      ({ db with chats := db.chats.map (setChatRowMuted true chatId) },
       { st with chats := st.chats.map (setMutedEntry true chatId) })

/-- Operation `unmuteChat(chatId)`. -/
def unmuteChat (user : Option Nat) (backendFail : Option String) (chatId : Nat)
    (db : DB) (st : StoreState) : DB × StoreState :=
  match backendFail with
  | some e => (db, { st with error := some e })
  | none =>
      ({ db with chats := db.chats.map (setChatRowMuted false chatId) },
       { st with chats := st.chats.map (setMutedEntry false chatId) })

/-- Operation `deleteChat(chatId)`: backend delete, then local removal of the entry. -/
def deleteChat (user : Option Nat) (backendFail : Option String) (chatId : Nat)
    (db : DB) (st : StoreState) : DB × StoreState :=
  match backendFail with
  | some e => (db, { st with error := some e })
  | none =>
      ({ db with chats := db.chats.filter fun c => decide (c.id ≠ chatId) },
       { st with chats := st.chats.filter fun c => decide (c.id ≠ chatId) })

/-! ## Live update listener (`subscribeToMessages`, `cleanup`) -/

/-- The realtime provider's state: the set of currently open channel
subscriptions (handle id paired with the chat id of its filter), and a
fresh-handle counter. -/
structure RtWorld where
  active : List (Nat × Nat)
  nextHandle : Nat
deriving DecidableEq, Repr

/-- Loop `subscriptions.forEach(sub => sub.unsubscribe())`: release every handle
the store currently holds. -/
def unsubscribeAll (held : List Nat) (w : RtWorld) : RtWorld :=
  { w with active := w.active.filter fun p => decide (p.1 ∉ held) }

/-- Operation `subscribeToMessages(chatId)`: first unsubscribe every held handle, then
open one channel filtered on `chat_id=eq.chatId` and store exactly that
handle. -/
def subscribeToMessages (chatId : Nat) (w : RtWorld) (st : StoreState) :
    RtWorld × StoreState :=
  let w1 := unsubscribeAll st.subscriptions w
  ({ w1 with active := (w1.nextHandle, chatId) :: w1.active,
             nextHandle := w1.nextHandle + 1 },
   { st with subscriptions := [w1.nextHandle] })

/-- Operation `cleanup()`: unsubscribe every held handle and clear `subscriptions`,
`currentChat` and `messages`. -/
def cleanup (w : RtWorld) (st : StoreState) : RtWorld × StoreState :=
  (unsubscribeAll st.subscriptions w,
   { st with subscriptions := [], currentChat := none, messages := [] })

/-- A direct chat between viewer 5 and doctor 7. -/
def exChat1 : Chat :=
  { id := 1, user_id := 5, doctor_id := 7, is_archived := false,
    is_muted := false, last_message_at := 0, unread_count := 0 }

/-- A group conversation created by viewer 5. -/
def exGroup10 : ChatGroup :=
  { id := 10, name := "g", created_by := 5, is_archived := false,
    is_muted := false, last_message_at := 0, unread_count := 0 }

/-- Viewer 5's membership row in group 10. -/
def exMember : GroupMember := { group_id := 10, user_id := 5, role := "admin" }

/-- Database holding the direct chat and the group, no messages yet. -/
def exDb0 : DB :=
  { chats := [exChat1], chat_groups := [exGroup10],
    chat_group_members := [exMember], chat_messages := [], nextId := 20 }

/-- The `currentChat` slot as `fetchMessages(1)` fills it: the raw row of
chat 1, carrying no `type` tag. -/
def exOpenChat1 : CurrentChat := { id := 1, type := none }

/-- Store state with chat 1 open (the raw, untagged row as `currentChat`)
and one held subscription handle. -/
def exSt0 : StoreState :=
  { chats := fetchChats 5 exDb0, messages := [],
    currentChat := some exOpenChat1,
    error := none, subscriptions := [3] }

/-- Database in which viewer 5 has sent one message into direct chat 1 and
one into group 10; both rows are unread and authored by the viewer, so the
spec's derived unread count is 0 for both conversations. -/
def exDbOwnMsgs : DB :=
  insertMessage
    { id := 22, chat_id := none, group_id := some 10, sender_id := 5,
      content := "own group", created_at := 60, is_read := false }
    (insertMessage
      { id := 21, chat_id := some 1, group_id := none, sender_id := 5,
        content := "own direct", created_at := 50, is_read := false }
      exDb0)

/-- C2. The claim states that the unread count annotated by the directory
listing equals the number of messages whose sender differs from the viewer
and whose read flag is false, for both direct and group conversations. The
code diverges on both kinds: for direct chats the embedded selection
`messages:chat_messages(content, created_at, is_read)` omits `sender_id`,
so the filter's `m.sender_id !== user.id` test compares against an absent
field and always passes — the count is over all unread messages, the
viewer's own included; for groups the listing reports the stored
`chat_groups.unread_count`, which the insert trigger increments for every
message regardless of sender. With both conversations holding exactly one
unread message authored by the viewer, the spec count is 0 for each, yet
the listing annotates 1 on each. -/
theorem c2_unread_count_diverges_from_derived_count :
    (fetchChats 5 exDbOwnMsgs).map (fun c => (c.id, c.unread_count)) = [(10, 1), (1, 1)]
    ∧ specUnreadCount 5 1 exDbOwnMsgs = 0
    ∧ specUnreadCount 5 10 exDbOwnMsgs = 0 := by
  decide

/-- Empty database for the pairing scenario. -/
def exDbEmpty : DB :=
  { chats := [], chat_groups := [], chat_group_members := [],
    chat_messages := [], nextId := 100 }

/-- C3 counterexample. The claim says `startDirectConversation` is
symmetric in its arguments: a second call with the arguments swapped
returns the already-existing conversation id and creates no duplicate.
In the code the existing-chat lookup demands the peer in the `doctor_id`
column, so after user 1 starts a chat with doctor 2 (row `(user 1, doctor
2)`, id 100), the swapped call by user 2 towards doctor 1 misses that row,
creates a second pairing and returns a different id. -/
theorem c3_swapped_call_creates_duplicate :
    (startChat 1 2 exDbEmpty).1 = 100
    ∧ (startChat 2 1 (startChat 1 2 exDbEmpty).2).1 = 101
    ∧ (startChat 2 1 (startChat 1 2 exDbEmpty).2).2.chats.length = 2 := by
  decide

/-- The row `startChat` inserts matches its own lookup filter. -/
lemma chatPairFilter_newChatRow (v d id : Nat) :
    chatPairFilter v d (newChatRow v d id) = true := by
  by_cases h : v = d <;> simp [chatPairFilter, newChatRow, h]

/-- C3 (amended). `startChat` is idempotent for the same argument order:
provided the lookup filter matches at most one stored row, a repeated call
with the same viewer and peer returns the id of the chat the first call
found or created, and leaves the database unchanged. (Symmetry fails — see
the counterexample: the lookup requires the peer in the `doctor_id`
column, so the swapped call creates a duplicate pairing.) -/
theorem c3_startChat_same_order_idempotent (v d : Nat) (db : DB)
    (h : (db.chats.filter (chatPairFilter v d)).length ≤ 1) :
    startChat v d (startChat v d db).2 = startChat v d db := by
  rcases hl : db.chats.filter (chatPairFilter v d) with _ | ⟨c, rest⟩
  · have h1 : findExistingChat v d db = none := by
      simp [findExistingChat, hl]
    have h2 : findExistingChat v d
        { db with chats := db.chats ++ [newChatRow v d db.nextId],
                  nextId := db.nextId + 1 }
        = some (newChatRow v d db.nextId) := by
      simp [findExistingChat, List.filter_append, hl, chatPairFilter_newChatRow]
    simp only [startChat, h1]
    rw [h2]
    simp [newChatRow]
  · rcases rest with _ | ⟨c2, rest2⟩
    · have h1 : findExistingChat v d db = some c := by
        simp [findExistingChat, hl]
      simp [startChat, h1]
    · rw [hl] at h
      simp at h

/-- Witness for C3 at a concrete database: the scenario of the spec (A has
no conversations, A starts a chat with B twice in the same order). -/
theorem c3_startChat_idempotent_witness :
    startChat 1 2 (startChat 1 2 exDbEmpty).2 = startChat 1 2 exDbEmpty :=
  c3_startChat_same_order_idempotent 1 2 exDbEmpty (by decide)

/-- Inserting preserves the multiset of entries. -/
lemma insertByRecency_perm (c : ProcessedChat) (l : List ProcessedChat) :
    List.Perm (insertByRecency c l) (c :: l) := by
  induction l with
  | nil => exact List.Perm.refl _
  | cons d ds ih =>
      unfold insertByRecency
      by_cases h : c.last_message_at < d.last_message_at
      · simp only [if_pos h]
        exact (ih.cons d).trans (List.Perm.swap c d ds)
      · simp only [if_neg h]
        exact List.Perm.refl _

/-- The client-side sort is a permutation of its input. -/
lemma sortByRecency_perm (l : List ProcessedChat) :
    List.Perm (sortByRecency l) l := by
  induction l with
  | nil => exact List.Perm.refl _
  | cons c cs ih =>
      exact (insertByRecency_perm c (sortByRecency cs)).trans (ih.cons c)

/-- Membership after insertion. -/
lemma insertByRecency_mem {x c : ProcessedChat} {l : List ProcessedChat}
    (hx : x ∈ insertByRecency c l) : x = c ∨ x ∈ l := by
  have := (insertByRecency_perm c l).mem_iff.1 hx
  simpa using this

/-- Inserting into a list sorted by `last_message_at` descending keeps it
sorted. -/
lemma insertByRecency_sorted (c : ProcessedChat) (l : List ProcessedChat)
    (hl : l.Pairwise fun a b => b.last_message_at ≤ a.last_message_at) :
    (insertByRecency c l).Pairwise fun a b => b.last_message_at ≤ a.last_message_at := by
  induction l with
  | nil => simp [insertByRecency]
  | cons d ds ih =>
      rcases List.pairwise_cons.1 hl with ⟨hd, hds⟩
      unfold insertByRecency
      by_cases h : c.last_message_at < d.last_message_at
      · simp only [if_pos h]
        refine List.pairwise_cons.2 ⟨?_, ih hds⟩
        intro x hx
        rcases insertByRecency_mem hx with rfl | hx'
        · exact le_of_lt h
        · exact hd x hx'
      · simp only [if_neg h]
        refine List.pairwise_cons.2 ⟨?_, hl⟩
        intro x hx
        have hdc : d.last_message_at ≤ c.last_message_at := Nat.le_of_not_lt h
        rcases List.mem_cons.1 hx with rfl | hx'
        · exact hdc
        · exact le_trans (hd x hx') hdc

/-- The client-side sort produces a list sorted by `last_message_at`
descending. -/
lemma sortByRecency_sorted (l : List ProcessedChat) :
    (sortByRecency l).Pairwise fun a b => b.last_message_at ≤ a.last_message_at := by
  induction l with
  | nil => simp [sortByRecency]
  | cons c cs ih => exact insertByRecency_sorted c _ ih

/-- C5. The conversation directory is the union of the processed direct
subset and the processed group subset — one merged sequence, nothing added
or dropped — sorted by last-activity timestamp descending; when the
timestamps are pairwise distinct the order is strictly descending (with
ties the stable sort keeps the pre-sort relative order, so equal inputs
always produce the identical output of this pure function). -/
theorem c5_fetchChats_merged_sorted (viewer : Nat) (db : DB) :
    List.Perm (fetchChats viewer db) (mergedChats viewer db)
    ∧ (fetchChats viewer db).Pairwise
        (fun a b => b.last_message_at ≤ a.last_message_at)
    ∧ ((mergedChats viewer db).Pairwise
          (fun a b => a.last_message_at ≠ b.last_message_at) →
        (fetchChats viewer db).Pairwise
          (fun a b => b.last_message_at < a.last_message_at)) := by
  refine ⟨sortByRecency_perm _, sortByRecency_sorted _, ?_⟩
  intro hdist
  have h2 : (fetchChats viewer db).Pairwise
      (fun a b => a.last_message_at ≠ b.last_message_at) :=
    ((sortByRecency_perm (mergedChats viewer db)).pairwise_iff
      (fun hab => Ne.symm hab)).2 hdist
  exact ((sortByRecency_sorted (mergedChats viewer db)).and h2).imp
    fun h => lt_of_le_of_ne h.1 (Ne.symm h.2)

/-- Witness for C5: on `exDbOwnMsgs` the two conversations carry distinct
timestamps, and the directory comes out strictly descending. -/
theorem c5_fetchChats_sorted_witness :
    (fetchChats 5 exDbOwnMsgs).Pairwise
      (fun a b => b.last_message_at < a.last_message_at) :=
  (c5_fetchChats_merged_sorted 5 exDbOwnMsgs).2.2 (by decide)

/-- A row of a different conversation (chat 2), as a stale or misrouted
delivery while the listener is attached to chat 1. -/
def exForeignMsg : Message :=
  { id := 33, chat_id := some 2, group_id := none, sender_id := 7,
    content := "stale", created_at := 70, is_read := false }

/-- Realtime world with one open channel, handle 3 bound to chat 9, held
by the store (`exSt0.subscriptions = [3]`). -/
def exRtW : RtWorld := { active := [(3, 9)], nextHandle := 4 }

/-- C7. Under the ownership invariant that every open channel handle is
held in the store's `subscriptions` slot, `subscribeToMessages X` first
releases all of them and leaves exactly one open channel, bound to `X`,
whose handle is exactly what the store now holds (so X's events are
delivered once); and `cleanup` is idempotent — a second call on an
already-detached store changes nothing and raises no error. -/
theorem c7_single_active_subscription (X : Nat) (w : RtWorld) (st : StoreState)
    (h : ∀ p ∈ w.active, p.1 ∈ st.subscriptions) :
    (subscribeToMessages X w st).1.active = [(w.nextHandle, X)]
    ∧ (subscribeToMessages X w st).2.subscriptions = [w.nextHandle]
    ∧ cleanup (cleanup w st).1 (cleanup w st).2 = cleanup w st := by
  have hfilter : w.active.filter (fun p => decide (p.1 ∉ st.subscriptions)) = [] := by
    rw [List.filter_eq_nil_iff]
    intro p hp
    simp [h p hp]
  refine ⟨?_, rfl, ?_⟩
  · simp only [subscribeToMessages, unsubscribeAll, hfilter]
  · simp [cleanup, unsubscribeAll]

/-- Witness for C7 at a concrete world: attaching to chat 1 while handle 3
is live leaves the single channel `(4, 1)`. -/
theorem c7_single_subscription_witness :
    (subscribeToMessages 1 exRtW exSt0).1.active = [(4, 1)]
    ∧ (subscribeToMessages 1 exRtW exSt0).2.subscriptions = [4]
    ∧ cleanup (cleanup exRtW exSt0).1 (cleanup exRtW exSt0).2
        = cleanup exRtW exSt0 :=
  c7_single_active_subscription 1 exRtW exSt0 (by decide)

/-- C9. The two optional identifiers of `mark_messages_as_read` degrade
deterministically: with both null the call is a complete no-op (and no
error); with both non-null only the direct-chat branch executes —
`p_chat_id` takes precedence, the group table is untouched, and messages
outside the addressed direct chat (all group rows included) are left
unchanged. -/
theorem c9_mark_read_optional_ids_degrade (db : DB) (cid gid : Nat) :
    mark_messages_as_read none none db = db
    ∧ mark_messages_as_read (some cid) (some gid) db
        = mark_messages_as_read (some cid) none db
    ∧ (mark_messages_as_read (some cid) (some gid) db).chat_groups = db.chat_groups
    ∧ (mark_messages_as_read (some cid) (some gid) db).chat_messages
        = db.chat_messages.map (markMsgReadDirect cid)
    ∧ (∀ m : Message, m.chat_id ≠ some cid → markMsgReadDirect cid m = m) := by
  refine ⟨rfl, rfl, rfl, rfl, ?_⟩
  intro m h
  simp [markMsgReadDirect, h]

/-- Witness for C9 at a concrete database and a concrete group row. -/
theorem c9_mark_read_witness :
    mark_messages_as_read none none exDbOwnMsgs = exDbOwnMsgs
    ∧ markMsgReadDirect 1 exForeignMsg = exForeignMsg :=
  ⟨(c9_mark_read_optional_ids_degrade exDbOwnMsgs 1 10).1,
   (c9_mark_read_optional_ids_degrade exDbOwnMsgs 1 10).2.2.2.2 exForeignMsg
     (by decide)⟩

/-- C10. Each directory toggle and the deletion is atomic with respect to
the local directory: on a backend error the whole store is unchanged
except for the error field (one equation per operation), and on success
the local patch rewrites only the targeted entry and only the toggled
field — the patch preserves every other field of every entry, leaves
non-target entries untouched, does not clear a pending error, and
deletion removes exactly the targeted entry. -/
theorem c10_toggles_atomic_local_patch (user : Option Nat) (e : String)
    (cid : Nat) (db : DB) (st : StoreState) :
    archiveChat user (some e) cid db st = (db, { st with error := some e })
    ∧ unarchiveChat user (some e) cid db st = (db, { st with error := some e })
    ∧ muteChat user (some e) cid db st = (db, { st with error := some e })
    ∧ unmuteChat user (some e) cid db st = (db, { st with error := some e })
    ∧ deleteChat user (some e) cid db st = (db, { st with error := some e })
    ∧ (archiveChat user none cid db st).2.chats
        = st.chats.map (setArchivedEntry true cid)
    ∧ (archiveChat user none cid db st).2.error = st.error
    ∧ (muteChat user none cid db st).2.chats
        = st.chats.map (setMutedEntry true cid)
    ∧ (∀ c : ProcessedChat,
        (setArchivedEntry true cid c).id = c.id
        ∧ (setArchivedEntry true cid c).is_muted = c.is_muted
        ∧ (setArchivedEntry true cid c).unread_count = c.unread_count
        ∧ (setArchivedEntry true cid c).last_message_at = c.last_message_at
        ∧ (setArchivedEntry true cid c).last_message = c.last_message
        ∧ (c.id ≠ cid → setArchivedEntry true cid c = c))
    ∧ (∀ c : ProcessedChat,
        (setMutedEntry true cid c).is_archived = c.is_archived
        ∧ (c.id ≠ cid → setMutedEntry true cid c = c))
    ∧ (deleteChat user none cid db st).2.chats
        = st.chats.filter (fun c => decide (c.id ≠ cid))
    ∧ (∀ c ∈ st.chats, c.id ≠ cid →
        c ∈ (deleteChat user none cid db st).2.chats) := by
  refine ⟨rfl, rfl, rfl, rfl, rfl, rfl, rfl, rfl, ?_, ?_, rfl, ?_⟩
  · intro c
    by_cases h : c.id = cid <;> simp [setArchivedEntry, h]
  · intro c
    by_cases h : c.id = cid <;> simp [setMutedEntry, h]
  · intro c hc hne
    exact List.mem_filter.2 ⟨hc, by simp [hne]⟩

/-- Witness for C10 at a concrete state: a failing backend call only sets
the error, and the archive patch fixes an entry with a different id. -/
theorem c10_toggles_witness :
    archiveChat (some 5) (some "boom") 1 exDb0 exSt0
        = (exDb0, { exSt0 with error := some "boom" })
    ∧ setArchivedEntry true 2 (processDirectChat 5 exDb0 exChat1)
        = processDirectChat 5 exDb0 exChat1 :=
  ⟨(c10_toggles_atomic_local_patch (some 5) "boom" 1 exDb0 exSt0).1,
   ((c10_toggles_atomic_local_patch (some 5) "boom" 2 exDb0 exSt0).2.2.2.2.2.2.2.2.1
     (processDirectChat 5 exDb0 exChat1)).2.2.2.2.2 (by decide)⟩

end MedNet
